import Mathlib

/-!
Shallow embedding of the GitHub OpenClaw Radar pipeline.

The development models the two source modules of the repository:

* `github_openclaw_radar.py` — embedded in namespace `Radar`: the recency
  filter `is_recent`/`iso_to_dt`, the PR classifier `classify_pr`, and the
  text renderer `summarize` (modelled as the list of report lines
  `summarizeLines` joined with newlines).
* `notion_write_github_radar.py` — embedded in namespace `Notion`: the
  module-local `classify_pr` and the children-building code of `main`
  (modelled as `children`, producing a list of typed `Block` values).

Python strings are modelled as Lean `String` (a list of Unicode code
points, matching Python's code-point view of `str` for indexing, slicing
and `len`).  The Python idioms used by the source are modelled by small
`py*` helper functions: `x or d` for string-or-None values (`pyOrD`),
`str.lower` (`pyLower`), `str.strip` (`pyStrip`), `str.startswith`
(`pyStartsWith`), the substring test `pat in s` (`pyIn`),
`s.replace("|", "‖")` (`pyReplacePipe`, the pattern is a single
character so the replacement is a character map), `s.replace("Z", "+00:00")`
(`pyReplaceZ`), slicing `s[:n]` (`pySlice`), and f-string interpolation of
a possibly-`None` value (`pyStrRepr`, `pyStrInt`).  JSON records coming
from the `gh` query adapters are modelled as structures of `Option` fields
(`none` = key absent or `null`).  `datetime.fromisoformat` is an external
library function; it is modelled as an injected parser
`String → Option PyDatetime`, where `none` models the parser raising
(e.g. `ValueError`) and a successful parse is either offset-aware
(carrying its timestamp in seconds) or offset-naive; the offset-aware
`datetime.now(timezone.utc)` is modelled as an injected `now : Int`.
Subtracting an offset-naive datetime from the aware `now` raises
`TypeError` in Python, so `is_recent` (whose `try` wraps only the
parsing step) is modelled in the `Except` monad.
-/

/-- Truthiness of a string-or-None value: Python treats `None` and the
empty string as falsy. -/
def pyTruthy (v : Option String) : Option String :=
  match v with
  | none => none
  | some s => if s = "" then none else some s

/-- Model of the Python idiom `v or d` for a string-or-None value `v` and a
string default `d`. -/
def pyOrD (v : Option String) (d : String) : String :=
  match pyTruthy v with
  | none => d
  | some s => s

/-- Model of `(rec.get("author") or {}).get("login") if
isinstance(rec.get("author"), dict) else None`: the outer `Option` is
whether the field holds a dictionary, the inner one whether that
dictionary has a non-null `login` entry. -/
def pyLogin (a : Option (Option String)) : Option String :=
  match a with
  | none => none
  | some l => l

/-- Model of f-string interpolation of a string-or-None value: Python
renders `None` as the four characters `None`. -/
def pyStrRepr (v : Option String) : String :=
  match v with
  | none => "None"
  | some s => s

/-- Model of f-string interpolation (or `str(...)`) of an int-or-None
value. -/
def pyStrInt (v : Option Int) : String :=
  match v with
  | none => "None"
  | some n => toString n

/-- Character map underlying `s.replace("|", "‖")`. -/
def pipeFix (c : Char) : Char :=
  if c = '|' then '‖' else c

/-- Model of `s.replace("|", "‖")`: the pattern is a single character, so
the replacement is a map over the characters of `s`. -/
def pyReplacePipe (s : String) : String :=
  ⟨s.data.map pipeFix⟩

/-- Model of `s.replace("Z", "+00:00")`: every occurrence of the single
character `Z` is expanded to `+00:00`. -/
def pyReplaceZ (s : String) : String :=
  ⟨s.data.flatMap (fun c => if c = 'Z' then "+00:00".data else [c])⟩

/-- Model of `str.lower`. -/
def pyLower (s : String) : String :=
  ⟨s.data.map Char.toLower⟩

/-- Model of `str.strip`: drop whitespace from both ends. -/
def pyStrip (s : String) : String :=
  ⟨((s.data.dropWhile Char.isWhitespace).reverse.dropWhile Char.isWhitespace).reverse⟩

/-- Model of `s.startswith(pre)`. -/
def pyStartsWith (s pre : String) : Bool :=
  List.isPrefixOf pre.data s.data

/-- Substring occurrence over character lists, structurally: `k` occurs in
`l` iff it is a prefix of `l` or occurs in its tail. -/
def charsIn (k : List Char) : List Char → Bool
  | [] => k.isEmpty
  | b :: t => List.isPrefixOf k (b :: t) || charsIn k t

/-- Model of the Python substring test `pat in s`. -/
def pyIn (pat s : String) : Bool :=
  charsIn pat.data s.data

/-- Model of the Python slice `s[:n]`. -/
def pySlice (s : String) (n : Nat) : String :=
  ⟨s.data.take n⟩

/-- An issue or pull-request record as produced by the `gh` JSON adapters
(`number,title,state,author,url` are the fields the renderers read). -/
structure ActivityRecord where
  number : Option Int
  title : Option String
  state : Option String
  author : Option (Option String)
  url : Option String
deriving DecidableEq

/-- A repository record as produced by the `gh search repos` adapter
(`name,fullName,description,owner,url` are the fields the renderers
read). -/
structure RepoRecord where
  name : Option String
  fullName : Option String
  description : Option String
  owner : Option (Option String)
  url : Option String
deriving DecidableEq

/-- The snapshot dictionary built by `build_snapshot`, as read back by the
renderers through `snapshot.get(...)`: every key may be absent. -/
structure Snapshot where
  generatedAt : Option String
  windowHours : Option Int
  coreIssues : Option (List ActivityRecord)
  corePRs : Option (List ActivityRecord)
  repos : Option (List RepoRecord)
deriving DecidableEq

/-- A parsed `datetime` as returned by `datetime.fromisoformat`: either
offset-aware (carrying its UTC timestamp in seconds) or offset-naive (the
input carried no UTC offset, e.g. `2026-01-01T00:00:00`, which
`fromisoformat` parses happily). -/
inductive PyDatetime where
  | aware (seconds : Int)
  | naive (seconds : Int)
deriving DecidableEq

namespace Radar

/-- Model of `iso_to_dt` from `github_openclaw_radar.py`: replace `Z` with
`+00:00`, then call the injected `datetime.fromisoformat` parser; `none`
models the parser raising (e.g. `ValueError` on a malformed string). -/
def iso_to_dt (fromisoformat : String → Option PyDatetime) (s : String) :
    Option PyDatetime :=
  fromisoformat (pyReplaceZ s)

/-- Model of subtracting a parsed datetime from the offset-aware
`datetime.now(timezone.utc)`: aware minus aware yields the difference in
seconds, aware minus naive raises `TypeError`. -/
def awareSub (now : Int) : PyDatetime → Except String Int
  | PyDatetime.aware dt => Except.ok (now - dt)
  | PyDatetime.naive _ => Except.error "TypeError"

/-- Model of `is_recent` from `github_openclaw_radar.py`.  The `try`
wraps only the `iso_to_dt` call, so a parser exception returns `False`;
the subsequent `now - dt <= timedelta(hours=hours)` (seconds, window
`hours * 3600`) is outside the `try` and raises an uncaught `TypeError`
when the parsed timestamp is offset-naive, hence the `Except` result. -/
def is_recent (fromisoformat : String → Option PyDatetime) (now : Int) (ts : String)
    (hours : Int) : Except String Bool :=
  match iso_to_dt fromisoformat ts with
  | none => Except.ok false
  | some dt =>
    match awareSub now dt with
    | Except.error e => Except.error e
    | Except.ok diff => Except.ok (decide (diff ≤ hours * 3600))

/-- Condition of the `bug` clause of `classify_pr` (line 114). -/
def bugCond (t : String) : Bool :=
  pyStartsWith t "fix" || pyIn "bug" t || pyIn "error" t

/-- Condition of the `feature` clause of `classify_pr` (line 116). -/
def featCond (t : String) : Bool :=
  pyStartsWith t "feat" || pyIn "feature" t || pyIn "add " t

/-- Condition of the `docs` clause of `classify_pr` (line 118). -/
def docsCond (t : String) : Bool :=
  pyStartsWith t "docs" || pyIn "doc" t || pyIn "readme" t

/-- Condition of the `refactor` clause of `classify_pr` (line 120). -/
def refacCond (t : String) : Bool :=
  pyIn "refactor" t

/-- Model of `classify_pr` from `github_openclaw_radar.py`. -/
def classify_pr (title : String) : String :=
  let t := pyLower title
  if bugCond t then "bug"
  else if featCond t then "feature"
  else if docsCond t then "docs"
  else if refacCond t then "refactor"
  else "other"

/-- Issue-row local `title` (line 154): `(it.get("title") or
"").strip().replace("|", "‖")`. -/
def issueTitle (it : ActivityRecord) : String :=
  pyReplacePipe (pyStrip (pyOrD it.title ""))

/-- Issue-row local `state` (line 155). -/
def issueState (it : ActivityRecord) : String :=
  pyOrD it.state "?"

/-- Issue-row local `author` (lines 156-157). -/
def issueAuthor (it : ActivityRecord) : String :=
  pyOrD (pyLogin it.author) "?"

/-- One issue table row (line 159). -/
def issueRow (it : ActivityRecord) : String :=
  "| " ++ pyStrInt it.number ++ " | " ++ issueState it ++ " | " ++
    issueAuthor it ++ " | [" ++ issueTitle it ++ "](" ++ pyStrRepr it.url ++ ") |"

/-- PR-row local `title` (line 171). -/
def prTitle (it : ActivityRecord) : String :=
  pyReplacePipe (pyStrip (pyOrD it.title ""))

/-- PR-row local `state` (line 172). -/
def prState (it : ActivityRecord) : String :=
  pyOrD it.state "?"

/-- PR-row local `author` (lines 173-174). -/
def prAuthor (it : ActivityRecord) : String :=
  pyOrD (pyLogin it.author) "?"

/-- PR-row local `pr_type` (line 176): the classifier applied to the
already stripped and pipe-substituted title. -/
def prType (it : ActivityRecord) : String :=
  classify_pr (prTitle it)

/-- One PR table row (line 177). -/
def prRow (it : ActivityRecord) : String :=
  "| " ++ pyStrInt it.number ++ " | " ++ prType it ++ " | " ++ prState it ++
    " | " ++ prAuthor it ++ " | [" ++ prTitle it ++ "](" ++ pyStrRepr it.url ++ ") |"

/-- Repo-row local `full` (line 188): `(r.get("fullName") or r.get("name")
or "").replace("|", "‖")`. -/
def repoFull (r : RepoRecord) : String :=
  pyReplacePipe (pyOrD r.fullName (pyOrD r.name ""))

/-- Repo-row local `desc` before truncation (line 189). -/
def repoDesc0 (r : RepoRecord) : String :=
  pyReplacePipe (pyStrip (pyOrD r.description ""))

/-- Repo-row local `owner` (lines 191-192). -/
def repoOwner (r : RepoRecord) : String :=
  pyOrD (pyLogin r.owner) "?"

/-- Repo-row local `desc` after the conditional truncation (lines
193-194): `if len(desc) > 80: desc = desc[:77] + "..."`. -/
def repoDesc (r : RepoRecord) : String :=
  if 80 < (repoDesc0 r).length then pySlice (repoDesc0 r) 77 ++ "..."
  else repoDesc0 r

/-- One repo table row (line 195). -/
def repoRow (r : RepoRecord) : String :=
  "| [" ++ repoFull r ++ "](" ++ pyStrRepr r.url ++ ") | " ++ repoOwner r ++
    " | " ++ repoDesc r ++ " |"

/-- Data rows of the issues table: `for it in issues[:10]` (line 152). -/
def issueRows (issues : List ActivityRecord) : List String :=
  (issues.take 10).map issueRow

/-- The issues section body (lines 147-160). -/
def issueSection (issues : List ActivityRecord) : List String :=
  if issues.isEmpty then ["- 最近沒有新的或更新的 issue\n"]
  else ["| # | 狀態 | 提出人 | 標題 |", "|---|------|--------|------|"] ++
    issueRows issues ++ [""]

/-- Data rows of the PR table: `for it in prs[:10]` (line 169). -/
def prRows (prs : List ActivityRecord) : List String :=
  (prs.take 10).map prRow

/-- The PR section body (lines 164-178). -/
def prSection (prs : List ActivityRecord) : List String :=
  if prs.isEmpty then ["- 最近沒有新的或更新的 PR\n"]
  else ["| # | 類型 | 狀態 | 作者 | 標題 |", "|---|------|------|------|------|"] ++
    prRows prs ++ [""]

/-- Data rows of the repos table: `for r in repos[:10]` (line 187). -/
def repoRows (repos : List RepoRecord) : List String :=
  (repos.take 10).map repoRow

/-- The repos section body (lines 182-195). -/
def repoSection (repos : List RepoRecord) : List String :=
  if repos.isEmpty then ["- 最近沒有新的或更新的相關 repo"]
  else ["| Repo | 作者 | 說明 |", "|------|------|------|"] ++ repoRows repos

/-- The `lines` list built by `summarize` (lines 125-196).  The issues
section heading on line 146 is a plain (non-f) string literal in the
source, so it contains the literal characters `\x7bhours\x7d`. -/
def summarizeLines (snapshot : Snapshot) : List String :=
  let hours := snapshot.windowHours.getD 24
  let issues := snapshot.coreIssues.getD []
  let prs := snapshot.corePRs.getD []
  let repos := snapshot.repos.getD []
  ["## GitHub OpenClaw Radar（最近 " ++ toString hours ++ " 小時）\n",
   "### 摘要",
   "- Issues 更新數量：約 " ++ toString issues.length ++ " 則",
   "- PR 更新數量：約 " ++ toString prs.length ++ " 則（已依 bug/feature/docs/other 分類）",
   "- 最近更新的 OpenClaw 相關 repo：約 " ++ toString repos.length ++ " 個",
   "",
   "### [openclaw/openclaw] Issues（最近 \x7bhours\x7d 小時）"] ++
  issueSection issues ++
  ["### [openclaw/openclaw] Pull Requests（分類：bug/feature/docs/other）"] ++
  prSection prs ++
  ["### [GitHub] 最近更新的 OpenClaw 相關 repo"] ++
  repoSection repos

/-- Model of `summarize`: the `lines` list joined with newlines (line
197). -/
def summarize (snapshot : Snapshot) : String :=
  String.intercalate "\n" (summarizeLines snapshot)

end Radar

namespace Notion

/-- A Notion rich-text value as built by `main`: plain text, or text with
a link (`{"content": ..., "link": {"url": ...}}`). -/
inductive RichText where
  | plain (content : String)
  | link (content : String) (url : String)
deriving DecidableEq

/-- A Notion block as built by `main`: level-2 heading, level-3 heading,
bulleted list item, or a table (`table_width` plus rows of cells). -/
inductive Block where
  | heading2 (content : String)
  | heading3 (content : String)
  | bullet (content : String)
  | table (width : Nat) (rows : List (List RichText))
deriving DecidableEq

/-- Model of the module-local `classify_pr` defined inside `main` in
`notion_write_github_radar.py` (lines 172-182); its body is identical to
the one in `github_openclaw_radar.py`. -/
def classify_pr (title : String) : String :=
  let t := pyLower title
  if pyStartsWith t "fix" || pyIn "bug" t || pyIn "error" t then "bug"
  else if pyStartsWith t "feat" || pyIn "feature" t || pyIn "add " t then "feature"
  else if pyStartsWith t "docs" || pyIn "doc" t || pyIn "readme" t then "docs"
  else if pyIn "refactor" t then "refactor"
  else "other"

/-- Issue-row local `title` (line 113): stripped, not pipe-substituted. -/
def issueTitle (it : ActivityRecord) : String :=
  pyStrip (pyOrD it.title "")

/-- Issue-row local `state` (line 110). -/
def issueState (it : ActivityRecord) : String :=
  pyOrD it.state "?"

/-- Issue-row local `author` (lines 111-112). -/
def issueAuthor (it : ActivityRecord) : String :=
  pyOrD (pyLogin it.author) "?"

/-- Issue-row `title_cell` (lines 116-122): hyperlinked when `url` is
truthy, plain otherwise. -/
def issueTitleCell (it : ActivityRecord) : RichText :=
  match pyTruthy it.url with
  | some u => RichText.link (issueTitle it) u
  | none => RichText.plain (issueTitle it)

/-- One issue table row (lines 124-129). -/
def issueRowCells (it : ActivityRecord) : List RichText :=
  [RichText.plain (pyStrInt it.number), RichText.plain (issueState it),
   RichText.plain (issueAuthor it), issueTitleCell it]

/-- PR-row local `title` (line 191). -/
def prTitle (it : ActivityRecord) : String :=
  pyStrip (pyOrD it.title "")

/-- PR-row local `state` (line 188). -/
def prState (it : ActivityRecord) : String :=
  pyOrD it.state "?"

/-- PR-row local `author` (lines 189-190). -/
def prAuthor (it : ActivityRecord) : String :=
  pyOrD (pyLogin it.author) "?"

/-- PR-row local `pr_type` (line 193): the module-local classifier applied
to the stripped title. -/
def prType (it : ActivityRecord) : String :=
  classify_pr (prTitle it)

/-- PR-row `title_cell` (lines 194-200). -/
def prTitleCell (it : ActivityRecord) : RichText :=
  match pyTruthy it.url with
  | some u => RichText.link (prTitle it) u
  | none => RichText.plain (prTitle it)

/-- One PR table row (lines 201-209). -/
def prRowCells (it : ActivityRecord) : List RichText :=
  [RichText.plain (pyStrInt it.number), RichText.plain (prType it),
   RichText.plain (prState it), RichText.plain (prAuthor it), prTitleCell it]

/-- Repo-row local `full` (line 230): `(r.get("fullName") or r.get("name")
or "").strip()`. -/
def repoFull (r : RepoRecord) : String :=
  pyStrip (pyOrD r.fullName (pyOrD r.name ""))

/-- Repo-row local `owner` (lines 231-232). -/
def repoOwner (r : RepoRecord) : String :=
  pyOrD (pyLogin r.owner) "?"

/-- Repo-row local `desc` before truncation (line 233). -/
def repoDesc0 (r : RepoRecord) : String :=
  pyStrip (pyOrD r.description "")

/-- Repo-row local `desc` after the conditional truncation (lines
235-236). -/
def repoDesc (r : RepoRecord) : String :=
  if 80 < (repoDesc0 r).length then pySlice (repoDesc0 r) 77 ++ "..."
  else repoDesc0 r

/-- Repo-row `repo_cell` (lines 237-243). -/
def repoCell (r : RepoRecord) : RichText :=
  match pyTruthy r.url with
  | some u => RichText.link (repoFull r) u
  | none => RichText.plain (repoFull r)

/-- One repo table row (lines 244-250). -/
def repoRowCells (r : RepoRecord) : List RichText :=
  [repoCell r, RichText.plain (repoOwner r), RichText.plain (repoDesc r)]

/-- The `children` block list built by `main` (lines 42-252), with
`make_table_block` folded in: header strings become plain cells and the
collected row cells become table rows. -/
def children (snapshot : Snapshot) : List Block :=
  let issues := snapshot.coreIssues.getD []
  let prs := snapshot.corePRs.getD []
  let repos := snapshot.repos.getD []
  [Block.heading2 ("GitHub OpenClaw Radar（最近 " ++
      toString (snapshot.windowHours.getD 24) ++ " 小時）"),
   Block.heading3 "摘要",
   Block.bullet ("Issues 更新數量：約 " ++ toString issues.length ++ " 則"),
   Block.bullet ("PR 更新數量：約 " ++ toString prs.length ++ " 則（已依 bug/feature/docs/other 分類）"),
   Block.bullet ("最近更新的 OpenClaw 相關 repo：約 " ++ toString repos.length ++ " 個"),
   Block.heading3 "openclaw/openclaw Issues",
   Block.table 4 ([["#", "狀態", "提出人", "標題"].map RichText.plain] ++
     (issues.take 10).map issueRowCells),
   Block.heading3 "openclaw/openclaw Pull Requests",
   Block.table 5 ([["#", "類型", "狀態", "作者", "標題"].map RichText.plain] ++
     (prs.take 10).map prRowCells),
   Block.heading3 "最近更新的 OpenClaw 相關 Repo",
   Block.table 3 ([["Repo", "作者", "說明"].map RichText.plain] ++
     (repos.take 10).map repoRowCells)]

end Notion

section Helpers

/-- If two character maps agree except at inputs whose images avoid every
character of `k`, then prefix testing `k` against the two mapped lists is
the same. -/
theorem isPrefixOf_map_congr (g h : Char → Char) :
    ∀ (k l : List Char),
      (∀ b, g b = h b ∨ ∀ a ∈ k, a ≠ g b ∧ a ≠ h b) →
      List.isPrefixOf k (l.map g) = List.isPrefixOf k (l.map h) := by
  intro k
  induction k with
  | nil => intro l H; simp [List.isPrefixOf]
  | cons a k ih =>
    intro l H
    cases l with
    | nil => simp
    | cons b t =>
      have step : ∀ (f : Char → Char),
          List.isPrefixOf (a :: k) ((b :: t).map f) =
            ((a == f b) && List.isPrefixOf k (t.map f)) := by
        intro f; simp [List.isPrefixOf]
      rw [step g, step h]
      rcases H b with hgh | hne
      · rw [hgh, ih t (fun b' => (H b').imp id
          (fun hh a' ha' => hh a' (List.mem_cons_of_mem a ha')))]
      · obtain ⟨h1, h2⟩ := hne a (List.mem_cons_self a k)
        rw [beq_eq_false_iff_ne.mpr h1, beq_eq_false_iff_ne.mpr h2]
        simp

/-- The analogue of `isPrefixOf_map_congr` for substring occurrence. -/
theorem charsIn_map_congr (g h : Char → Char) (k : List Char)
    (H : ∀ b, g b = h b ∨ ∀ a ∈ k, a ≠ g b ∧ a ≠ h b) :
    ∀ l : List Char, charsIn k (l.map g) = charsIn k (l.map h) := by
  intro l
  induction l with
  | nil => rfl
  | cons b t ih =>
    simp only [List.map_cons, charsIn]
    rw [ih]
    have hp : List.isPrefixOf k (g b :: t.map g) = List.isPrefixOf k (h b :: t.map h) := by
      have := isPrefixOf_map_congr g h k (b :: t) H
      simpa using this
    rw [hp]

/-- The congruence hypothesis holds for `Char.toLower ∘ pipeFix` versus
`Char.toLower` whenever the pattern avoids both `|` and `‖`. -/
theorem pipe_lower_congrHyp (k : List Char) (h1 : '|' ∉ k) (h2 : '‖' ∉ k) :
    ∀ b, Char.toLower (pipeFix b) = Char.toLower b ∨
      ∀ a ∈ k, a ≠ Char.toLower (pipeFix b) ∧ a ≠ Char.toLower b := by
  intro b
  by_cases hb : b = '|'
  · subst hb
    right
    intro a ha
    have e1 : Char.toLower (pipeFix '|') = '‖' := by decide
    have e2 : Char.toLower '|' = '|' := by decide
    rw [e1, e2]
    exact ⟨fun hc => h2 (hc ▸ ha), fun hc => h1 (hc ▸ ha)⟩
  · left
    rw [pipeFix, if_neg hb]

/-- Characters of `pyLower (pyReplacePipe s)`. -/
theorem data_pyLower_pyReplacePipe (s : String) :
    (pyLower (pyReplacePipe s)).data = s.data.map (fun c => Char.toLower (pipeFix c)) := by
  simp [pyLower, pyReplacePipe]

/-- Characters of `pyLower s`. -/
theorem data_pyLower (s : String) :
    (pyLower s).data = s.data.map Char.toLower := rfl

/-- `pyStartsWith` is unchanged by the pipe substitution when the tested
pattern contains neither `|` nor `‖`. -/
theorem pyStartsWith_pipe (s pre : String) (h1 : '|' ∉ pre.data) (h2 : '‖' ∉ pre.data) :
    pyStartsWith (pyLower (pyReplacePipe s)) pre = pyStartsWith (pyLower s) pre := by
  unfold pyStartsWith
  rw [data_pyLower_pyReplacePipe, data_pyLower]
  exact isPrefixOf_map_congr _ _ pre.data s.data (pipe_lower_congrHyp pre.data h1 h2)

/-- `pyIn` is unchanged by the pipe substitution when the tested pattern
contains neither `|` nor `‖`. -/
theorem pyIn_pipe (pat s : String) (h1 : '|' ∉ pat.data) (h2 : '‖' ∉ pat.data) :
    pyIn pat (pyLower (pyReplacePipe s)) = pyIn pat (pyLower s) := by
  unfold pyIn
  rw [data_pyLower_pyReplacePipe, data_pyLower]
  exact charsIn_map_congr _ _ pat.data (pipe_lower_congrHyp pat.data h1 h2) s.data

end Helpers

section PipeLemmas

/-- The pipe substitution leaves no `|` character behind. -/
theorem pipe_not_mem_map (l : List Char) : '|' ∉ l.map pipeFix := by
  intro h
  obtain ⟨a, ha, hfa⟩ := List.mem_map.mp h
  by_cases hb : a = '|'
  · subst hb
    simp [pipeFix] at hfa
  · rw [pipeFix, if_neg hb] at hfa
    exact hb hfa

/-- Boolean `contains` is `false` on non-members. -/
theorem contains_false_of_not_mem {l : List Char} {c : Char} (h : c ∉ l) :
    l.contains c = false := by
  rw [Bool.eq_false_iff]
  intro hc
  exact h (List.elem_iff.mp hc)

end PipeLemmas

namespace Radar

/-- The `bug` clause condition is unchanged by the pipe substitution. -/
theorem bugCond_pipe (s : String) :
    bugCond (pyLower (pyReplacePipe s)) = bugCond (pyLower s) := by
  unfold bugCond
  rw [pyStartsWith_pipe s "fix" (by decide) (by decide),
    pyIn_pipe "bug" s (by decide) (by decide),
    pyIn_pipe "error" s (by decide) (by decide)]

/-- The `feature` clause condition is unchanged by the pipe substitution. -/
theorem featCond_pipe (s : String) :
    featCond (pyLower (pyReplacePipe s)) = featCond (pyLower s) := by
  unfold featCond
  rw [pyStartsWith_pipe s "feat" (by decide) (by decide),
    pyIn_pipe "feature" s (by decide) (by decide),
    pyIn_pipe "add " s (by decide) (by decide)]

/-- The `docs` clause condition is unchanged by the pipe substitution. -/
theorem docsCond_pipe (s : String) :
    docsCond (pyLower (pyReplacePipe s)) = docsCond (pyLower s) := by
  unfold docsCond
  rw [pyStartsWith_pipe s "docs" (by decide) (by decide),
    pyIn_pipe "doc" s (by decide) (by decide),
    pyIn_pipe "readme" s (by decide) (by decide)]

/-- The `refactor` clause condition is unchanged by the pipe substitution. -/
theorem refacCond_pipe (s : String) :
    refacCond (pyLower (pyReplacePipe s)) = refacCond (pyLower s) := by
  unfold refacCond
  rw [pyIn_pipe "refactor" s (by decide) (by decide)]

/-- The classifier gives the same label before and after the pipe
substitution: none of its keywords involves `|` or `‖`. -/
theorem classify_pr_pipe (s : String) :
    classify_pr (pyReplacePipe s) = classify_pr s := by
  simp only [classify_pr]
  rw [bugCond_pipe, featCond_pipe, docsCond_pipe, refacCond_pipe]

end Radar

section WitnessData

/-- Concrete issue record used by witnesses (the scenario record of the
spec). -/
def wIssue : ActivityRecord :=
  ⟨some 5, some "Fix crash on load", some "open", some (some "ann"), some "https://x/5"⟩

/-- Concrete record with every optional field absent except number, title
and state. -/
def wNoUrl : ActivityRecord :=
  ⟨some 7, some "Hello", some "open", none, none⟩

/-- Concrete snapshot with eleven issues, used to witness the 10-row
display cap. -/
def wSnap11 : Snapshot :=
  ⟨none, some 24, some (List.replicate 11 wIssue), some [], some []⟩

/-- Concrete repo record with an 85-character description. -/
def wDesc85 : RepoRecord :=
  ⟨some "radar", some "openclaw/radar",
   some "aaaaaaaaaaaaaaaaaaaaaaaaaaaaaaaaaaaaaaaaaaaaaaaaaaaaaaaaaaaaaaaaaaaaaaaaaaaaaaaaaaaaa",
   some (some "o"), some "u"⟩

/-- Concrete stand-in for `datetime.fromisoformat`: parses one
offset-aware normalized string and one offset-naive string, rejecting
everything else. -/
def wParse : String → Option PyDatetime :=
  fun s =>
    if s = "2026-01-01T00:00:00+00:00" then some (PyDatetime.aware 100)
    else if s = "2026-01-01T00:00:00" then some (PyDatetime.naive 100)
    else none

end WitnessData

/-- C1: for every snapshot, the text renderer (`summarize`) and the block
renderer (the children-building code) report identical summary counts for
issues, PRs and repos — both read the same snapshot fields, the text
count lines being the block bullets prefixed with a dash — and assign the
identical classification label to every PR title: the two `classify_pr`
functions are extensionally equal, and the label placed in a PR row is the
same in both outputs for every record (the text renderer classifies the
pipe-substituted title, which cannot change the label). -/
theorem C1_dual_render_consistency :
    (∀ s : Snapshot,
      (Radar.summarizeLines s).get? 2 =
        some ("- " ++ ("Issues 更新數量：約 " ++ toString (s.coreIssues.getD []).length ++ " 則")) ∧
      (Notion.children s).get? 2 =
        some (Notion.Block.bullet
          ("Issues 更新數量：約 " ++ toString (s.coreIssues.getD []).length ++ " 則")) ∧
      (Radar.summarizeLines s).get? 3 =
        some ("- " ++ ("PR 更新數量：約 " ++ toString (s.corePRs.getD []).length ++
          " 則（已依 bug/feature/docs/other 分類）")) ∧
      (Notion.children s).get? 3 =
        some (Notion.Block.bullet ("PR 更新數量：約 " ++ toString (s.corePRs.getD []).length ++
          " 則（已依 bug/feature/docs/other 分類）")) ∧
      (Radar.summarizeLines s).get? 4 =
        some ("- " ++ ("最近更新的 OpenClaw 相關 repo：約 " ++ toString (s.repos.getD []).length ++ " 個")) ∧
      (Notion.children s).get? 4 =
        some (Notion.Block.bullet
          ("最近更新的 OpenClaw 相關 repo：約 " ++ toString (s.repos.getD []).length ++ " 個"))) ∧
    (∀ title : String, Radar.classify_pr title = Notion.classify_pr title) ∧
    (∀ it : ActivityRecord, Radar.prType it = Notion.prType it) := by
  refine ⟨fun s => ⟨rfl, rfl, rfl, rfl, rfl, rfl⟩, fun _ => rfl, fun it => ?_⟩
  show Radar.classify_pr (Radar.prTitle it) = Notion.classify_pr (Notion.prTitle it)
  rw [show Radar.prTitle it = pyReplacePipe (Notion.prTitle it) from rfl]
  rw [Radar.classify_pr_pipe]
  rfl

/-- C2 counterexample: `classify_pr("Refactor the fix module")` returns
`refactor`, not `bug` — the bug clause tests `fix` only with
`startswith`, so the refactor clause is reached. -/
theorem C2_counterexample :
    (Radar.classify_pr "Refactor the fix module" == "bug") = false ∧
    Radar.classify_pr "Refactor the fix module" = "refactor" := by
  constructor
  · decide
  · decide

/-- C2 amended: `classify_pr("Add dark mode support")` returns `feature`,
and `classify_pr("Refactor the fix module")` returns `refactor` (the bug
clause checks `fix` only as a prefix, not as a substring, so the refactor
clause fires); the module-local classifier of the block renderer agrees. -/
theorem C2_amended_scenarios :
    Radar.classify_pr "Add dark mode support" = "feature" ∧
    Radar.classify_pr "Refactor the fix module" = "refactor" ∧
    Notion.classify_pr "Add dark mode support" = "feature" ∧
    Notion.classify_pr "Refactor the fix module" = "refactor" := by
  refine ⟨by decide, by decide, by decide, by decide⟩

/-- C3: any title whose lowercasing starts with `fix` classifies as `bug`
(even when it also contains `docs` or any later keyword); the clauses are
evaluated in the fixed priority order bug, feature, docs, refactor, other
with first match winning; the function is total with every output among
the five labels, and the empty title classifies as `other`. -/
theorem C3_classifier_priority_total :
    (∀ title : String, pyStartsWith (pyLower title) "fix" = true →
      Radar.classify_pr title = "bug") ∧
    (∀ title : String, Radar.bugCond (pyLower title) = true →
      Radar.classify_pr title = "bug") ∧
    (∀ title : String, Radar.bugCond (pyLower title) = false →
      Radar.featCond (pyLower title) = true → Radar.classify_pr title = "feature") ∧
    (∀ title : String, Radar.bugCond (pyLower title) = false →
      Radar.featCond (pyLower title) = false →
      Radar.docsCond (pyLower title) = true → Radar.classify_pr title = "docs") ∧
    (∀ title : String, Radar.bugCond (pyLower title) = false →
      Radar.featCond (pyLower title) = false →
      Radar.docsCond (pyLower title) = false →
      Radar.refacCond (pyLower title) = true → Radar.classify_pr title = "refactor") ∧
    (∀ title : String, Radar.bugCond (pyLower title) = false →
      Radar.featCond (pyLower title) = false →
      Radar.docsCond (pyLower title) = false →
      Radar.refacCond (pyLower title) = false → Radar.classify_pr title = "other") ∧
    (∀ title : String, Radar.classify_pr title = "bug" ∨
      Radar.classify_pr title = "feature" ∨ Radar.classify_pr title = "docs" ∨
      Radar.classify_pr title = "refactor" ∨ Radar.classify_pr title = "other") ∧
    Radar.classify_pr "" = "other" := by
  refine ⟨?_, ?_, ?_, ?_, ?_, ?_, ?_, by decide⟩
  · intro title h
    have hb : Radar.bugCond (pyLower title) = true := by
      unfold Radar.bugCond
      rw [h]
      simp
    simp [Radar.classify_pr, hb]
  · intro title h
    simp [Radar.classify_pr, h]
  · intro title h1 h2
    simp [Radar.classify_pr, h1, h2]
  · intro title h1 h2 h3
    simp [Radar.classify_pr, h1, h2, h3]
  · intro title h1 h2 h3 h4
    simp [Radar.classify_pr, h1, h2, h3, h4]
  · intro title h1 h2 h3 h4
    simp [Radar.classify_pr, h1, h2, h3, h4]
  · intro title
    simp only [Radar.classify_pr]
    by_cases h1 : Radar.bugCond (pyLower title) <;>
      by_cases h2 : Radar.featCond (pyLower title) <;>
      by_cases h3 : Radar.docsCond (pyLower title) <;>
      by_cases h4 : Radar.refacCond (pyLower title) <;>
      simp [h1, h2, h3, h4]

/-- C3 witness: `Fix docs typo` starts with `fix` after lowercasing and is
classified `bug`, not `docs`. -/
theorem C3_witness : Radar.classify_pr "Fix docs typo" = "bug" :=
  C3_classifier_priority_total.1 "Fix docs typo" (by decide)

/-- C4 counterexample: an offset-naive timestamp string parses
successfully, and then the subtraction of the naive datetime from the
aware `now` — outside the `try` — raises an uncaught `TypeError`, so
`is_recent` does not return a boolean at all, refuting the claim that
every successfully parsed timestamp yields the boolean window
comparison. -/
theorem C4_counterexample :
    Radar.is_recent wParse 90 "2026-01-01T00:00:00" 24 = Except.error "TypeError" ∧
    (Radar.is_recent wParse 90 "2026-01-01T00:00:00" 24).isOk = false := by
  constructor
  · rfl
  · rfl

/-- C4 amended: `is_recent` returns `false` whenever the parser raises on
the timestamp after the `Z` replacement; when the timestamp parses to an
offset-aware datetime it returns `true` exactly when
`now - parsed <= hours` (in seconds, `hours * 3600`) — in particular an
aware timestamp in the future is always recent for a non-negative
window; but when the timestamp parses to an offset-naive datetime the
subtraction `now - dt` raises an uncaught `TypeError` instead of
returning a boolean. -/
theorem C4_is_recent_spec (fromisoformat : String → Option PyDatetime)
    (now w : Int) (ts : String) :
    (Radar.iso_to_dt fromisoformat ts = none →
      Radar.is_recent fromisoformat now ts w = Except.ok false) ∧
    (∀ dt : Int, Radar.iso_to_dt fromisoformat ts = some (PyDatetime.aware dt) →
      (Radar.is_recent fromisoformat now ts w = Except.ok true ↔ now - dt ≤ w * 3600)) ∧
    (∀ dt : Int, Radar.iso_to_dt fromisoformat ts = some (PyDatetime.aware dt) →
      now < dt → 0 ≤ w →
      Radar.is_recent fromisoformat now ts w = Except.ok true) ∧
    (∀ dt : Int, Radar.iso_to_dt fromisoformat ts = some (PyDatetime.naive dt) →
      Radar.is_recent fromisoformat now ts w = Except.error "TypeError") := by
  refine ⟨?_, ?_, ?_, ?_⟩
  · intro h
    unfold Radar.is_recent
    rw [h]
  · intro dt h
    unfold Radar.is_recent
    rw [h]
    simp [Radar.awareSub]
  · intro dt h hfut hw
    unfold Radar.is_recent
    rw [h]
    simp only [Radar.awareSub, Except.ok.injEq, decide_eq_true_eq]
    have h1 : (0 : Int) ≤ w * 3600 := by positivity
    omega
  · intro dt h
    unfold Radar.is_recent
    rw [h]
    rfl

/-- C4 witness: a non-parsing timestamp is not recent; a parseable
offset-aware future timestamp (with a trailing `Z` normalized to
`+00:00`) is recent. -/
theorem C4_witness :
    Radar.is_recent wParse 90 "not-a-timestamp" 24 = Except.ok false ∧
    Radar.is_recent wParse 90 "2026-01-01T00:00:00Z" 24 = Except.ok true := by
  constructor
  · exact (C4_is_recent_spec wParse 90 24 "not-a-timestamp").1 (by decide)
  · exact (C4_is_recent_spec wParse 90 24 "2026-01-01T00:00:00Z").2.2.1 100
      (by decide) (by decide) (by decide)

/-- C5 counterexample: in the text renderer a record without a `url` still
renders its title cell as a markdown hyperlink — with the literal target
`None` — rather than omitting the hyperlink. -/
theorem C5_counterexample :
    Radar.issueRow wNoUrl = "| 7 | open | ? | [Hello](None) |" ∧
    pyIn "](None)" (Radar.issueRow wNoUrl) = true := by
  constructor
  · decide
  · decide

/-- C5 amended: missing optional fields never raise and every such field
has a defined placeholder — `?` for a missing author/owner login, the
empty string for a missing description — and the block renderer omits the
hyperlink when the url is absent; the text renderer however always emits
the markdown link syntax, interpolating the literal `None` as the target
when the url is absent. -/
theorem C5_missing_field_placeholders :
    (∀ it : ActivityRecord, it.author = none →
      Radar.issueAuthor it = "?" ∧ Radar.prAuthor it = "?" ∧
      Notion.issueAuthor it = "?" ∧ Notion.prAuthor it = "?") ∧
    (∀ it : ActivityRecord, it.author = some none →
      Radar.issueAuthor it = "?" ∧ Notion.issueAuthor it = "?") ∧
    (∀ r : RepoRecord, r.owner = none →
      Radar.repoOwner r = "?" ∧ Notion.repoOwner r = "?") ∧
    (∀ r : RepoRecord, r.description = none →
      Radar.repoDesc r = "" ∧ Notion.repoDesc r = "") ∧
    (∀ it : ActivityRecord, it.url = none →
      Notion.issueTitleCell it = Notion.RichText.plain (Notion.issueTitle it) ∧
      Notion.prTitleCell it = Notion.RichText.plain (Notion.prTitle it)) ∧
    (∀ r : RepoRecord, r.url = none →
      Notion.repoCell r = Notion.RichText.plain (Notion.repoFull r)) ∧
    (∀ it : ActivityRecord, it.url = none →
      Radar.issueRow it = Radar.issueRow { it with url := some "None" } ∧
      Radar.prRow it = Radar.prRow { it with url := some "None" }) := by
  refine ⟨?_, ?_, ?_, ?_, ?_, ?_, ?_⟩
  · intro it h
    refine ⟨?_, ?_, ?_, ?_⟩ <;>
      simp [Radar.issueAuthor, Radar.prAuthor, Notion.issueAuthor, Notion.prAuthor,
        pyLogin, pyOrD, pyTruthy, h]
  · intro it h
    constructor <;>
      simp [Radar.issueAuthor, Notion.issueAuthor, pyLogin, pyOrD, pyTruthy, h]
  · intro r h
    constructor <;>
      simp [Radar.repoOwner, Notion.repoOwner, pyLogin, pyOrD, pyTruthy, h]
  · intro r h
    have hr : Radar.repoDesc0 r = "" := by
      simp [Radar.repoDesc0, pyReplacePipe, pyStrip, pyOrD, pyTruthy, h]
    have hn : Notion.repoDesc0 r = "" := by
      simp [Notion.repoDesc0, pyStrip, pyOrD, pyTruthy, h]
    constructor
    · rw [Radar.repoDesc, hr]
      decide
    · rw [Notion.repoDesc, hn]
      decide
  · intro it h
    constructor <;>
      simp [Notion.issueTitleCell, Notion.prTitleCell, pyTruthy, h]
  · intro r h
    simp [Notion.repoCell, pyTruthy, h]
  · intro it h
    constructor
    · rw [Radar.issueRow, Radar.issueRow, h]
      rfl
    · rw [Radar.prRow, Radar.prRow, h]
      rfl

/-- C5 witness: concrete record with absent author and url — the author
renders as `?` and the block-renderer title cell carries no link. -/
theorem C5_witness :
    Radar.issueAuthor wNoUrl = "?" ∧
    Notion.issueTitleCell wNoUrl = Notion.RichText.plain "Hello" := by
  constructor
  · exact (C5_missing_field_placeholders.1 wNoUrl rfl).1
  · exact (C5_missing_field_placeholders.2.2.2.2.1 wNoUrl rfl).1

/-- The pipe substitution preserves string length. -/
theorem pyReplacePipe_length (s : String) : (pyReplacePipe s).length = s.length := by
  show (s.data.map pipeFix).length = s.data.length
  exact List.length_map _ _

/-- Truncating a string longer than 80 characters to 77 and appending the
ellipsis yields exactly 80 characters. -/
theorem pySlice_ellipsis_length (s : String) (h : 80 < s.length) :
    (pySlice s 77 ++ "...").length = 80 := by
  have h' : 80 < s.data.length := h
  show (s.data.take 77 ++ "...".data).length = 80
  rw [List.length_append, List.length_take, show ("...".data.length) = 3 from rfl]
  omega

/-- C6: in both renderers, a repo description whose (stripped) length
exceeds 80 characters is rendered as exactly its first 77 characters
followed by the 3-character ellipsis marker (total 80 characters), and a
description of length 80 or fewer is rendered unchanged.  In the text
renderer the rendered characters are those of the pipe-substituted
stripped description (the substitution of C8), which has the same length
as the stripped description, so the 80/77 boundary is measured on the
stripped description in both renderers. -/
theorem C6_description_truncation (r : RepoRecord) :
    ((Radar.repoDesc0 r).length = (pyStrip (pyOrD r.description "")).length) ∧
    (80 < (Radar.repoDesc0 r).length →
      Radar.repoDesc r = pySlice (Radar.repoDesc0 r) 77 ++ "..." ∧
      (Radar.repoDesc r).length = 80) ∧
    ((Radar.repoDesc0 r).length ≤ 80 → Radar.repoDesc r = Radar.repoDesc0 r) ∧
    (Notion.repoDesc0 r = pyStrip (pyOrD r.description "")) ∧
    (80 < (Notion.repoDesc0 r).length →
      Notion.repoDesc r = pySlice (Notion.repoDesc0 r) 77 ++ "..." ∧
      (Notion.repoDesc r).length = 80) ∧
    ((Notion.repoDesc0 r).length ≤ 80 → Notion.repoDesc r = Notion.repoDesc0 r) := by
  refine ⟨?_, ?_, ?_, rfl, ?_, ?_⟩
  · exact pyReplacePipe_length (pyStrip (pyOrD r.description ""))
  · intro h
    refine ⟨by rw [Radar.repoDesc, if_pos h], ?_⟩
    rw [Radar.repoDesc, if_pos h]
    exact pySlice_ellipsis_length (Radar.repoDesc0 r) h
  · intro h
    rw [Radar.repoDesc, if_neg (by omega)]
  · intro h
    refine ⟨by rw [Notion.repoDesc, if_pos h], ?_⟩
    rw [Notion.repoDesc, if_pos h]
    exact pySlice_ellipsis_length (Notion.repoDesc0 r) h
  · intro h
    rw [Notion.repoDesc, if_neg (by omega)]

/-- C6 witness: an 85-character description renders with length 80 in the
text renderer and as the first 77 characters plus `...` in the block
renderer. -/
theorem C6_witness :
    (Radar.repoDesc wDesc85).length = 80 ∧
    Notion.repoDesc wDesc85 =
      "aaaaaaaaaaaaaaaaaaaaaaaaaaaaaaaaaaaaaaaaaaaaaaaaaaaaaaaaaaaaaaaaaaaaaaaaaaaaa" ++ "..." := by
  constructor
  · exact ((C6_description_truncation wDesc85).2.1 (by decide)).2
  · exact ((C6_description_truncation wDesc85).2.2.2.2.1 (by decide)).1

/-- C7: the three summary bullet lines of the text report state the full
lengths of `coreIssues`, `corePRs` and `repos`, while each table renders
only the first 10 records of its sequence in snapshot order; when a
sequence holds more than 10 records the stated count exceeds the number
of rendered rows. -/
theorem C7_summary_counts_vs_rows (s : Snapshot) :
    ((Radar.summarizeLines s).get? 2 =
      some ("- Issues 更新數量：約 " ++ toString (s.coreIssues.getD []).length ++ " 則")) ∧
    ((Radar.summarizeLines s).get? 3 =
      some ("- PR 更新數量：約 " ++ toString (s.corePRs.getD []).length ++
        " 則（已依 bug/feature/docs/other 分類）")) ∧
    ((Radar.summarizeLines s).get? 4 =
      some ("- 最近更新的 OpenClaw 相關 repo：約 " ++ toString (s.repos.getD []).length ++ " 個")) ∧
    (Radar.issueRows (s.coreIssues.getD []) =
      ((s.coreIssues.getD []).take 10).map Radar.issueRow) ∧
    (Radar.prRows (s.corePRs.getD []) =
      ((s.corePRs.getD []).take 10).map Radar.prRow) ∧
    (Radar.repoRows (s.repos.getD []) =
      ((s.repos.getD []).take 10).map Radar.repoRow) ∧
    ((Radar.issueRows (s.coreIssues.getD [])).length =
      min 10 (s.coreIssues.getD []).length) ∧
    ((Radar.prRows (s.corePRs.getD [])).length = min 10 (s.corePRs.getD []).length) ∧
    ((Radar.repoRows (s.repos.getD [])).length = min 10 (s.repos.getD []).length) ∧
    (10 < (s.coreIssues.getD []).length →
      (Radar.issueRows (s.coreIssues.getD [])).length < (s.coreIssues.getD []).length) ∧
    (10 < (s.corePRs.getD []).length →
      (Radar.prRows (s.corePRs.getD [])).length < (s.corePRs.getD []).length) ∧
    (10 < (s.repos.getD []).length →
      (Radar.repoRows (s.repos.getD [])).length < (s.repos.getD []).length) := by
  have hi : (Radar.issueRows (s.coreIssues.getD [])).length =
      min 10 (s.coreIssues.getD []).length := by
    simp [Radar.issueRows]
  have hp : (Radar.prRows (s.corePRs.getD [])).length =
      min 10 (s.corePRs.getD []).length := by
    simp [Radar.prRows]
  have hr : (Radar.repoRows (s.repos.getD [])).length =
      min 10 (s.repos.getD []).length := by
    simp [Radar.repoRows]
  refine ⟨rfl, rfl, rfl, rfl, rfl, rfl, hi, hp, hr, ?_, ?_, ?_⟩
  · intro h
    rw [hi]
    omega
  · intro h
    rw [hp]
    omega
  · intro h
    rw [hr]
    omega

/-- C7 witness: with eleven filtered issues, the summary states 11 while
the issues table renders only 10 rows. -/
theorem C7_witness :
    (Radar.summarizeLines wSnap11).get? 2 = some "- Issues 更新數量：約 11 則" ∧
    (Radar.issueRows (wSnap11.coreIssues.getD [])).length <
      (wSnap11.coreIssues.getD []).length := by
  constructor
  · exact (C7_summary_counts_vs_rows wSnap11).1
  · exact (C7_summary_counts_vs_rows wSnap11).2.2.2.2.2.2.2.2.2.1 (by decide)

/-- C8: in the text renderer every `|` character occurring in a title cell
or description cell (and in the repo-name cell) is substituted with `‖`
before the row is emitted, so the emitted title, repo-name and
description contents contain no `|` character. -/
theorem C8_pipe_substitution :
    (∀ it : ActivityRecord,
      Radar.issueTitle it = pyReplacePipe (pyStrip (pyOrD it.title "")) ∧
      (Radar.issueTitle it).data.contains '|' = false) ∧
    (∀ it : ActivityRecord,
      Radar.prTitle it = pyReplacePipe (pyStrip (pyOrD it.title "")) ∧
      (Radar.prTitle it).data.contains '|' = false) ∧
    (∀ r : RepoRecord,
      Radar.repoFull r = pyReplacePipe (pyOrD r.fullName (pyOrD r.name "")) ∧
      (Radar.repoFull r).data.contains '|' = false) ∧
    (∀ r : RepoRecord, (Radar.repoDesc r).data.contains '|' = false) := by
  refine ⟨?_, ?_, ?_, ?_⟩
  · intro it
    exact ⟨rfl, contains_false_of_not_mem (pipe_not_mem_map _)⟩
  · intro it
    exact ⟨rfl, contains_false_of_not_mem (pipe_not_mem_map _)⟩
  · intro r
    exact ⟨rfl, contains_false_of_not_mem (pipe_not_mem_map _)⟩
  · intro r
    rw [Radar.repoDesc]
    by_cases h : 80 < (Radar.repoDesc0 r).length
    · rw [if_pos h]
      apply contains_false_of_not_mem
      intro hm
      have hm2 : '|' ∈ (Radar.repoDesc0 r).data.take 77 ++ "...".data := hm
      rcases List.mem_append.mp hm2 with hl | hr
      · exact pipe_not_mem_map _ (List.take_subset 77 _ hl)
      · simp at hr
    · rw [if_neg h]
      exact contains_false_of_not_mem (pipe_not_mem_map _)

/-- C9: `summarize` is total over snapshots with absent keys: a missing
`windowHours` behaves as 24 and missing `coreIssues`, `corePRs` or
`repos` behave as empty sequences, and the empty sequences produce the
corresponding one-line placeholder sections. -/
theorem C9_defaults_total :
    (∀ (g : Option String) (w : Option Int) (i p : Option (List ActivityRecord))
        (r : Option (List RepoRecord)),
      Radar.summarizeLines ⟨g, w, i, p, r⟩ =
        Radar.summarizeLines
          ⟨g, some (w.getD 24), some (i.getD []), some (p.getD []), some (r.getD [])⟩) ∧
    Radar.issueSection [] = ["- 最近沒有新的或更新的 issue\n"] ∧
    Radar.prSection [] = ["- 最近沒有新的或更新的 PR\n"] ∧
    Radar.repoSection [] = ["- 最近沒有新的或更新的相關 repo"] ∧
    Radar.summarize ⟨none, none, none, none, none⟩ =
      Radar.summarize ⟨none, some 24, some [], some [], some []⟩ := by
  exact ⟨fun g w i p r => rfl, rfl, rfl, rfl, rfl⟩

/-- C10 counterexample: the Issues section heading is the constant string
with the literal placeholder `\x7bhours\x7d`, but that placeholder is
seven characters, not six. -/
theorem C10_counterexample :
    (Radar.summarizeLines ⟨none, some 24, some [], some [], some []⟩).get? 6 =
      some "### [openclaw/openclaw] Issues（最近 \x7bhours\x7d 小時）" ∧
    ("\x7bhours\x7d".length == 6) = false ∧
    "\x7bhours\x7d".length = 7 := by
  refine ⟨rfl, by decide, by decide⟩

/-- C10 amended: for every snapshot, regardless of its `windowHours`
value, the Issues section heading emitted by the text renderer is the
constant string `### [openclaw/openclaw] Issues（最近 \x7bhours\x7d 小時）`
containing the literal seven characters `\x7bhours\x7d` rather than the
numeric window value (only the top-level level-2 heading interpolates the
window). -/
theorem C10_issues_heading_literal (s : Snapshot) :
    (Radar.summarizeLines s).get? 6 =
      some ("### [openclaw/openclaw] Issues（最近 " ++ "\x7bhours\x7d" ++ " 小時）") ∧
    "\x7bhours\x7d".length = 7 ∧
    (Radar.summarizeLines s).get? 0 =
      some ("## GitHub OpenClaw Radar（最近 " ++ toString (s.windowHours.getD 24) ++ " 小時）\n") := by
  refine ⟨rfl, by decide, rfl⟩
